import Mathlib

/-!
Verification development for the structured-generation client wrapper in
`models/gemini.py`.

Strings coming from the Python side are modelled either as Lean `String`
(when only equality and trimming matter) or as `List Char` (when suffix /
concatenation reasoning is needed); Python `bytes` payloads are opaque and
modelled as `String`.  Fallible Python code (code that can raise) is
modelled with `Except`.
-/

/-! ## JSON values and a fuel-based JSON parser

Models Python's `json.loads` / pydantic's JSON parsing for the inputs the
claims need: null, booleans, integers, strings (with the basic escapes),
arrays and objects.  Parsing is total via an explicit fuel argument; the
entry point supplies fuel larger than any possible nesting depth of the
input, so fuel exhaustion never fires on real inputs.
-/

inductive Json where
  | null : Json
  | bool (b : Bool) : Json
  | num (n : Int) : Json
  | str (s : String) : Json
  | arr (elems : List Json) : Json
  | obj (fields : List (String × Json)) : Json

def isWsChar (c : Char) : Bool :=
  c = ' ' || c = '\n' || c = '\t' || c = '\r'

def skipWs (s : List Char) : List Char := s.dropWhile isWsChar

def escChar (c : Char) : Option Char :=
  if c = '"' || c = '\\' || c = '/' then some c
  else if c = 'n' then some '\n'
  else if c = 't' then some '\t'
  else if c = 'r' then some '\r'
  else none

def parseStringBody : List Char → Except String (String × List Char)
  | [] => .error "unterminated string"
  | '"' :: rest => .ok ("", rest)
  | '\\' :: c :: rest =>
    match escChar c with
    | none => .error "invalid escape"
    | some ec =>
      match parseStringBody rest with
      | .ok (s, r) => .ok (ec.toString ++ s, r)
      | .error e => .error e
  | c :: rest =>
    match parseStringBody rest with
    | .ok (s, r) => .ok (c.toString ++ s, r)
    | .error e => .error e

def digitsToNat (ds : List Char) : Nat :=
  ds.foldl (fun acc c => 10 * acc + (c.toNat - 48)) 0

def parseDigits (s : List Char) : Except String (Int × List Char) :=
  let ds := s.takeWhile Char.isDigit
  if ds = [] then .error "invalid number"
  else .ok ((digitsToNat ds : Int), s.dropWhile Char.isDigit)

def parseNumber : List Char → Except String (Int × List Char)
  | '-' :: rest =>
    match parseDigits rest with
    | .ok (n, r) => .ok (-n, r)
    | .error e => .error e
  | s => parseDigits s

mutual

def parseValue : Nat → List Char → Except String (Json × List Char)
  | 0, _ => .error "fuel exhausted"
  | fuel + 1, s =>
    match skipWs s with
    | [] => .error "unexpected end of input"
    | 'n' :: 'u' :: 'l' :: 'l' :: rest => .ok (.null, rest)
    | 't' :: 'r' :: 'u' :: 'e' :: rest => .ok (.bool true, rest)
    | 'f' :: 'a' :: 'l' :: 's' :: 'e' :: rest => .ok (.bool false, rest)
    | '"' :: rest =>
      match parseStringBody rest with
      | .ok (s, r) => .ok (.str s, r)
      | .error e => .error e
    | '[' :: rest =>
      match parseArrayRest fuel rest with
      | .ok (xs, r) => .ok (.arr xs, r)
      | .error e => .error e
    | '{' :: rest =>
      match parseObjectRest fuel rest with
      | .ok (fs, r) => .ok (.obj fs, r)
      | .error e => .error e
    | c :: rest =>
      if c = '-' || c.isDigit then
        match parseNumber (c :: rest) with
        | .ok (n, r) => .ok (.num n, r)
        | .error e => .error e
      else .error "unexpected character"

def parseArrayRest : Nat → List Char → Except String (List Json × List Char)
  | 0, _ => .error "fuel exhausted"
  | fuel + 1, s =>
    match skipWs s with
    | ']' :: rest => .ok ([], rest)
    | s1 =>
      match parseValue fuel s1 with
      | .error e => .error e
      | .ok (j, r) =>
        match parseCommaValues fuel r with
        | .error e => .error e
        | .ok (xs, r2) => .ok (j :: xs, r2)

def parseCommaValues : Nat → List Char → Except String (List Json × List Char)
  | 0, _ => .error "fuel exhausted"
  | fuel + 1, s =>
    match skipWs s with
    | ']' :: rest => .ok ([], rest)
    | ',' :: rest =>
      match parseValue fuel rest with
      | .error e => .error e
      | .ok (j, r) =>
        match parseCommaValues fuel r with
        | .error e => .error e
        | .ok (xs, r2) => .ok (j :: xs, r2)
    | _ => .error "expected comma or end of array"

def parseMember : Nat → List Char → Except String ((String × Json) × List Char)
  | 0, _ => .error "fuel exhausted"
  | fuel + 1, s =>
    match skipWs s with
    | '"' :: rest =>
      match parseStringBody rest with
      | .error e => .error e
      | .ok (key, r) =>
        match skipWs r with
        | ':' :: r2 =>
          match parseValue fuel r2 with
          | .error e => .error e
          | .ok (v, r3) => .ok ((key, v), r3)
        | _ => .error "expected colon"
    | _ => .error "expected object key"

def parseObjectRest : Nat → List Char → Except String (List (String × Json) × List Char)
  | 0, _ => .error "fuel exhausted"
  | fuel + 1, s =>
    match skipWs s with
    | '}' :: rest => .ok ([], rest)
    | s1 =>
      match parseMember fuel s1 with
      | .error e => .error e
      | .ok (kv, r) =>
        match parseCommaMembers fuel r with
        | .error e => .error e
        | .ok (fs, r2) => .ok (kv :: fs, r2)

def parseCommaMembers : Nat → List Char → Except String (List (String × Json) × List Char)
  | 0, _ => .error "fuel exhausted"
  | fuel + 1, s =>
    match skipWs s with
    | '}' :: rest => .ok ([], rest)
    | ',' :: rest =>
      match parseMember fuel rest with
      | .error e => .error e
      | .ok (kv, r) =>
        match parseCommaMembers fuel r with
        | .error e => .error e
        | .ok (fs, r2) => .ok (kv :: fs, r2)
    | _ => .error "expected comma or end of object"

end

def parseJsonChars (s : List Char) : Except String Json :=
  match parseValue (2 * s.length + 4) s with
  | .error e => .error e
  | .ok (j, rest) => if skipWs rest = [] then .ok j else .error "extra data"

def parseJson (s : String) : Except String Json := parseJsonChars s.toList

/-! ## Schema validation (pydantic model classes from the source)

The source declares pydantic models (`Transformation`, `TransformationPrompts`,
`Room`, `RoomList`, `CritiqueQuestion`, `CritiqueQuestionList`) and decodes
responses with `Model.model_validate_json(response.text)`.  A validation
failure is a pydantic `ValidationError` carrying a location path naming the
offending field and an error kind (pydantic v2 kinds: "missing",
"string_type", "list_type", "model_type", "too_short", "too_long",
"json_invalid").  We model the first reported violation.
-/

structure VErr where
  loc : List String
  kind : String
deriving DecidableEq, Repr

structure Transformation where
  title : String
  prompt : String
deriving DecidableEq, Repr

structure TransformationPrompts where
  transformations : List Transformation
deriving DecidableEq, Repr

structure Room where
  room_name : String
deriving DecidableEq, Repr

structure RoomList where
  rooms : List Room
deriving DecidableEq, Repr

structure CritiqueQuestion where
  question : String
deriving DecidableEq, Repr

structure CritiqueQuestionList where
  questions : List CritiqueQuestion
deriving DecidableEq, Repr

def validateStrField (fields : List (String × Json)) (name : String) :
    Except VErr String :=
  match fields.lookup name with
  | none => .error ⟨[name], "missing"⟩
  | some (Json.str s) => .ok s
  | some _ => .error ⟨[name], "string_type"⟩

def validateItems {α : Type} (f : Json → Except VErr α) (field : String) :
    List Json → Nat → Except VErr (List α)
  | [], _ => .ok []
  | j :: rest, i =>
    match f j with
    | .error e => .error ⟨field :: toString i :: e.loc, e.kind⟩
    | .ok a =>
      match validateItems f field rest (i + 1) with
      | .error e => .error e
      | .ok xs => .ok (a :: xs)

/-- A list-valued field with `min_length` / `max_length` bounds, as in
`Field(..., min_length=3, max_length=3)`. -/
def validateBoundedList {α : Type} (f : Json → Except VErr α) (field : String)
    (minL maxL : Nat) (fields : List (String × Json)) : Except VErr (List α) :=
  match fields.lookup field with
  | none => .error ⟨[field], "missing"⟩
  | some (Json.arr xs) =>
    if xs.length < minL then .error ⟨[field], "too_short"⟩
    else if maxL < xs.length then .error ⟨[field], "too_long"⟩
    else validateItems f field xs 0
  | some _ => .error ⟨[field], "list_type"⟩

/-- A list-valued field with no declared length bounds. -/
def validateListField {α : Type} (f : Json → Except VErr α) (field : String)
    (fields : List (String × Json)) : Except VErr (List α) :=
  match fields.lookup field with
  | none => .error ⟨[field], "missing"⟩
  | some (Json.arr xs) => validateItems f field xs 0
  | some _ => .error ⟨[field], "list_type"⟩

def validateTransformation : Json → Except VErr Transformation
  | Json.obj fields =>
    match validateStrField fields "title" with
    | .error e => .error e
    | .ok title =>
      match validateStrField fields "prompt" with
      | .error e => .error e
      | .ok p => .ok ⟨title, p⟩
  | _ => .error ⟨[], "model_type"⟩

/-- `TransformationPrompts` from the source: `transformations` is declared with
`min_length=3, max_length=3`. -/
def validateTransformationPrompts : Json → Except VErr TransformationPrompts
  | Json.obj fields =>
    match validateBoundedList validateTransformation "transformations" 3 3 fields with
    | .error e => .error e
    | .ok ts => .ok ⟨ts⟩
  | _ => .error ⟨[], "model_type"⟩

def validateRoom : Json → Except VErr Room
  | Json.obj fields =>
    match validateStrField fields "room_name" with
    | .error e => .error e
    | .ok n => .ok ⟨n⟩
  | _ => .error ⟨[], "model_type"⟩

def validateRoomList : Json → Except VErr RoomList
  | Json.obj fields =>
    match validateListField validateRoom "rooms" fields with
    | .error e => .error e
    | .ok rs => .ok ⟨rs⟩
  | _ => .error ⟨[], "model_type"⟩

def validateCritiqueQuestion : Json → Except VErr CritiqueQuestion
  | Json.obj fields =>
    match validateStrField fields "question" with
    | .error e => .error e
    | .ok q => .ok ⟨q⟩
  | _ => .error ⟨[], "model_type"⟩

/-- `CritiqueQuestionList` from the source: `questions` is declared with
`max_length=5, min_length=5`. -/
def validateCritiqueQuestionList : Json → Except VErr CritiqueQuestionList
  | Json.obj fields =>
    match validateBoundedList validateCritiqueQuestion "questions" 5 5 fields with
    | .error e => .error e
    | .ok qs => .ok ⟨qs⟩
  | _ => .error ⟨[], "model_type"⟩

/-- `RoomList.model_validate_json`: JSON parsing followed by schema
validation; unparseable input is a `ValidationError` of kind
"json_invalid". -/
def roomListValidateJson (s : String) : Except VErr RoomList :=
  match parseJson s with
  | .error _ => .error ⟨[], "json_invalid"⟩
  | .ok j => validateRoomList j

/-! ## Python exceptions

All the exceptions the modelled code can raise.  They all subclass
`Exception` in Python, which is the class the retry decorator matches.
-/

inductive PyErr where
  | transport (msg : String)
  | validation (e : VErr)
  | jsonDecode (msg : String)
  | attributeError
  | typeError
deriving DecidableEq, Repr

/-! ## The invocation envelope

Every generation function in the source is wrapped in

  @retry(wait=wait_exponential(multiplier=1, min=1, max=10),
         stop=stop_after_attempt(3),
         retry=retry_if_exception_type(Exception),
         reraise=True)

We model the wrapped remote call as an oracle `body : Nat → Except E A`
giving the outcome of each 1-based attempt, and the envelope as a function
returning the final outcome, the number of attempts made, and the list of
backoff sleeps (in whole seconds) taken between attempts.
-/

/-- tenacity's `wait_exponential(multiplier, min, max)` after a failed
attempt numbered `n`: `multiplier * 2^(n-1)` clamped between `min` and
`max`. -/
def waitExponential (multiplier minW maxW n : Nat) : Nat :=
  max (max 0 minW) (min (multiplier * 2 ^ (n - 1)) maxW)

/-- The wait policy used at every call site:
`wait_exponential(multiplier=1, min=1, max=10)`. -/
def geminiWait (n : Nat) : Nat := waitExponential 1 1 10 n

/-- The retry loop: run attempt number `attempt`; on an exception, if
`remaining > 0` attempts are still allowed by `stop_after_attempt`, sleep
`geminiWait attempt` and try again, otherwise reraise the last exception
(`reraise=True`). -/
def retryExec {E A : Type} (body : Nat → Except E A) (attempt : Nat) :
    Nat → Except E A × Nat × List Nat
  | 0 => (body attempt, attempt, [])
  | r + 1 =>
    match body attempt with
    | .ok a => (.ok a, attempt, [])
    | .error _ =>
      let next := retryExec body (attempt + 1) r
      (next.1, next.2.1, geminiWait attempt :: next.2.2)

/-- The envelope with `stop_after_attempt(3)`: first attempt is number 1,
at most 2 further attempts. -/
def tenacityInvoke3 {E A : Type} (body : Nat → Except E A) :
    Except E A × Nat × List Nat :=
  retryExec body 1 2

/-! ## extract_room_names_from_image

The body of the decorated function: make the remote call (any transport
exception propagates to the decorator), then decode the response text with
`RoomList.model_validate_json` — the decode happens INSIDE the decorated
function, so a `ValidationError` is also an `Exception` seen by the
decorator.  `remote` is the attempt oracle for `client.models.generate_content`,
yielding the response text on success.
-/

def extract_room_names_body (remote : Nat → Except String String) (attempt : Nat) :
    Except PyErr (List String) :=
  match remote attempt with
  | .error e => .error (.transport e)
  | .ok text =>
    match roomListValidateJson text with
    | .error ve => .error (.validation ve)
    | .ok roomList => .ok (roomList.rooms.map (fun room => room.room_name))

def extract_room_names_from_image (remote : Nat → Except String String) :
    Except PyErr (List String) × Nat × List Nat :=
  tenacityInvoke3 (extract_room_names_body remote)

/-! ## rewriter and rewrite_prompt_with_gemini

`rewriter` calls the remote service and returns `response.text` (which the
genai SDK types as `Optional[str]`); its `try/except` logs and re-raises, so
it is the identity on the error path.  `rewrite_prompt_with_gemini` returns
the original prompt when the rewritten text is falsy (`None` or `""`) and
the rewritten text otherwise; exceptions are printed and re-raised.
-/

def rewriter {E : Type} (remote : Nat → Except E (Option String)) :
    Except E (Option String) × Nat × List Nat :=
  tenacityInvoke3 remote

def rewrite_prompt_with_gemini {E : Type} (remote : Nat → Except E (Option String))
    (original_prompt : String) : Except E String :=
  match (rewriter remote).1 with
  | .error e => .error e
  | .ok none => .ok original_prompt
  | .ok (some t) => if t = "" then .ok original_prompt else .ok t

/-! ## describe_image

`describe_image` returns `response.text.strip()`.  When the response has no
text parts the genai SDK's `response.text` is `None`, and `None.strip()`
raises `AttributeError` — inside the decorated function, so the decorator
retries it and finally reraises it.
-/

def describe_image_body (remote : Nat → Except String (Option String))
    (attempt : Nat) : Except PyErr String :=
  match remote attempt with
  | .error e => .error (.transport e)
  | .ok none => .error .attributeError
  | .ok (some t) => .ok t.trim

def describe_image (remote : Nat → Except String (Option String)) :
    Except PyErr String × Nat × List Nat :=
  tenacityInvoke3 (describe_image_body remote)

/-! ## analyze_audio_with_gemini (response decoding)

After the remote call succeeds, the function inspects `response.text`; when
that is falsy it tries to assemble JSON text from `response.parts`
(`"".join(part.text for part in response.parts if hasattr(part, "text"))` —
a part whose `text` is `None` makes the join raise `TypeError`), and when
nothing usable exists it logs a warning and returns `None` — a normal
return, not an exception.
-/

structure APart where
  text : Option String
deriving Repr

def joinPartTexts : List APart → Except PyErr String
  | [] => .ok ""
  | p :: rest =>
    match p.text with
    | none => .error .typeError
    | some t =>
      match joinPartTexts rest with
      | .error e => .error e
      | .ok s => .ok (t ++ s)

def analyze_audio_decode (text : Option String) (parts : List APart) :
    Except PyErr (Option Json) :=
  let fromParts : Except PyErr (Option Json) :=
    match parts with
    | [] => .ok none
    | _ =>
      match joinPartTexts parts with
      | .error e => .error e
      | .ok joined =>
        if joined = "" then .ok none
        else
          match parseJson joined with
          | .error m => .error (.jsonDecode m)
          | .ok j => .ok (some j)
  match text with
  | none => fromParts
  | some t =>
    if t = "" then fromParts
    else
      match parseJson t with
      | .error m => .error (.jsonDecode m)
      | .ok j => .ok (some j)

/-! ## generate_image_from_prompt_and_images (response decoding)

The loop over `candidate.content.parts`: text parts accumulate into
`current_text_buffer`; each part with `inline_data` stores the payload (its
mime type defaulting to "image/png" when absent or falsy), appends the
stripped buffer as that item's caption, and resets the buffer.  Text is
`List Char` so that caption accumulation is list concatenation; the stored
bytes are opaque `String`s, and each stored `Media` stands for one
`store_to_gcs` call / returned GCS URI.
-/

structure InlineData where
  mime_type : Option String
  data : String
deriving DecidableEq, Repr

structure GenPart where
  text : Option (List Char)
  inline_data : Option InlineData
deriving DecidableEq, Repr

structure Media where
  mime_type : String
  data : String
deriving DecidableEq, Repr

/-- `# Default to "image/png" if mime_type is missing` — the declared type
is used only when present and truthy. -/
def resolveMime : Option String → String
  | none => "image/png"
  | some m => if m = "" then "image/png" else m

/-- Python `str.strip()` on a character list. -/
def trimChars (s : List Char) : List Char :=
  ((s.dropWhile Char.isWhitespace).reverse.dropWhile Char.isWhitespace).reverse

def decodeLoop : List GenPart → List Char → List Media × List (List Char)
  | [], _ => ([], [])
  | p :: rest, buf =>
    let buf1 :=
      match p.text with
      | some t => if t = [] then buf else buf ++ t
      | none => buf
    match p.inline_data with
    | none => decodeLoop rest buf1
    | some d =>
      let next := decodeLoop rest []
      (⟨resolveMime d.mime_type, d.data⟩ :: next.1, trimChars buf1 :: next.2)

def decodeParts (ps : List GenPart) : List Media × List (List Char) :=
  decodeLoop ps []

/-- The whole response-decoding path: `if response.candidates:` takes
`candidates[0]`; `if candidate.content and candidate.content.parts:` guards
the loop; otherwise both result lists stay empty. -/
structure GenContent where
  parts : List GenPart
deriving Repr

structure GenCandidate where
  content : Option GenContent
deriving Repr

def generate_image_from_prompt_and_images (candidates : List GenCandidate) :
    List Media × List (List Char) :=
  match candidates with
  | [] => ([], [])
  | c :: _ =>
    match c.content with
    | none => ([], [])
    | some content =>
      match content.parts with
      | [] => ([], [])
      | ps => decodeParts ps

def mkTextPart (t : List Char) : GenPart := ⟨some t, none⟩

def mkMediaPart (d : InlineData) : GenPart := ⟨none, some d⟩

/-! ## generate_text (request building: media-kind inference)

The mime-type inference in `generate_text`: lower-case the locator and test
its trailing extension against the fixed suffix tables, in source order.
Locators are `List Char` so that suffix reasoning is list-suffix reasoning.
-/

def videoExts : List (List Char) :=
  [".mp4".toList, ".mov".toList, ".avi".toList, ".mkv".toList, ".webm".toList]

def audioExts : List (List Char) :=
  [".wav".toList, ".mp3".toList, ".flac".toList]

def imageExts : List (List Char) :=
  [".png".toList, ".jpg".toList, ".jpeg".toList, ".webp".toList, ".gif".toList]

def lowerChars (s : List Char) : List Char := s.map Char.toLower

def inferMimeType (image_uri : List Char) : String :=
  let l := lowerChars image_uri
  if videoExts.any (fun e => e.isSuffixOf l) then "video/mp4"
  else if audioExts.any (fun e => e.isSuffixOf l) then "audio/wav"
  else if imageExts.any (fun e => e.isSuffixOf l) then "image/png"
  else if ".pdf".toList.isSuffixOf l then "application/pdf"
  else "application/octet-stream"

inductive RequestPart where
  | text (t : String) : RequestPart
  | fromUri (uri : List Char) (mime : String) : RequestPart
deriving Repr

/-- The `parts` list built by `generate_text`: the prompt first, then one
`Part.from_uri` per locator with the inferred mime type. -/
def generate_text_parts (prompt : String) (images : List (List Char)) :
    List RequestPart :=
  RequestPart.text prompt ::
    images.map (fun u => RequestPart.fromUri u (inferMimeType u))

/-- The media-kind predicate of the inference tables: some extension in
`exts` is a suffix of the lower-cased locator. -/
def suffixMatch (exts : List (List Char)) (uri : List Char) : Prop :=
  ∃ e ∈ exts, e <:+ lowerChars uri

instance suffixMatchDecidable (exts : List (List Char)) (uri : List Char) :
    Decidable (suffixMatch exts uri) :=
  inferInstanceAs (Decidable (∃ e ∈ exts, e <:+ lowerChars uri))

/-! ## Helper lemmas -/

theorem decodeLoop_length (ps : List GenPart) : ∀ buf,
    (decodeLoop ps buf).1.length = (decodeLoop ps buf).2.length := by
  induction ps with
  | nil => intro buf; simp [decodeLoop]
  | cons p rest ih =>
    intro buf
    simp only [decodeLoop]
    cases p.inline_data with
    | none => simpa using ih _
    | some d => simpa using ih []

theorem decodeLoop_textRun (ts : List (List Char)) : ∀ (l : List GenPart) (buf : List Char),
    decodeLoop (ts.map mkTextPart ++ l) buf = decodeLoop l (buf ++ ts.flatten) := by
  induction ts with
  | nil => intro l buf; simp
  | cons t ts ih =>
    intro l buf
    have hbuf : (if t = [] then buf else buf ++ t) = buf ++ t := by
      split
      next h => simp [h]
      next h => rfl
    simp only [List.map_cons, List.cons_append, decodeLoop, mkTextPart, hbuf,
      List.flatten_cons]
    rw [show (List.map mkTextPart ts).append l = List.map mkTextPart ts ++ l from rfl,
      ih, List.append_assoc]

theorem retryExec_attempts_le {E A : Type} (body : Nat → Except E A) :
    ∀ (r a : Nat), (retryExec body a r).2.1 ≤ a + r := by
  intro r
  induction r with
  | zero => intro a; simp [retryExec]
  | succ r ih =>
    intro a
    simp only [retryExec]
    cases body a with
    | ok v => simp
    | error e =>
      simp only
      calc (retryExec body (a+1) r).2.1 ≤ (a+1) + r := ih (a+1)
        _ = a + (r+1) := by omega

theorem geminiWait_bounds (n : Nat) : 1 ≤ geminiWait n ∧ geminiWait n ≤ 10 := by
  unfold geminiWait waitExponential
  constructor
  · exact le_sup_of_le_left (by simp)
  · exact sup_le (by simp) inf_le_right

theorem retryExec_delay_mem {E A : Type} (body : Nat → Except E A) :
    ∀ (r a : Nat) (d : Nat), d ∈ (retryExec body a r).2.2 → ∃ n, d = geminiWait n := by
  intro r
  induction r with
  | zero => intro a d h; simp [retryExec] at h
  | succ r ih =>
    intro a d h
    simp only [retryExec] at h
    cases hb : body a with
    | ok v => rw [hb] at h; simp at h
    | error e =>
      rw [hb] at h
      simp only [List.mem_cons] at h
      rcases h with h | h
      · exact ⟨a, h⟩
      · exact ih (a+1) d h

theorem any_suffix_true {X : List (List Char)} {l : List Char}
    (h : ∃ e ∈ X, e <:+ l) : X.any (fun e => e.isSuffixOf l) = true := by
  rcases h with ⟨e, he, hs⟩
  exact List.any_eq_true.mpr ⟨e, he, List.isSuffixOf_iff_suffix.mpr hs⟩

theorem any_suffix_false_of_not {X : List (List Char)} {l : List Char}
    (h : ¬ ∃ e ∈ X, e <:+ l) : X.any (fun e => e.isSuffixOf l) = false := by
  rw [List.any_eq_false]
  intro e he
  simp only [List.isSuffixOf_iff_suffix]
  intro hs
  exact h ⟨e, he, hs⟩

theorem any_suffix_false_of_disjoint {A B : List (List Char)} {l e : List Char}
    (he : e ∈ A) (hsuf : e <:+ l)
    (hdisj : ∀ a ∈ A, ∀ b ∈ B, ¬ a <:+ b ∧ ¬ b <:+ a) :
    B.any (fun b => b.isSuffixOf l) = false := by
  rw [List.any_eq_false]
  intro b hb
  simp only [List.isSuffixOf_iff_suffix]
  intro hbl
  rcases List.suffix_or_suffix_of_suffix hsuf hbl with h | h
  · exact (hdisj e he b hb).1 h
  · exact (hdisj e he b hb).2 h

/-! ## Claims -/

/-- Claim C1: the media-response decoder in
`generate_image_from_prompt_and_images` pairs each inline media payload with
the concatenation of all text parts accumulated since the previous media
payload (trimmed), and resets the caption buffer after each media item is
claimed; in particular the interleaved sequence
`[text "A", media1, text "B", media2]` produces captions `["A", "B"]`
aligned with the two stored media items in order. -/
theorem C1_caption_pairing (ts : List (List Char)) (d : InlineData)
    (rest : List GenPart) :
    decodeParts (ts.map mkTextPart ++ mkMediaPart d :: rest)
      = (⟨resolveMime d.mime_type, d.data⟩ :: (decodeParts rest).1,
         trimChars ts.flatten :: (decodeParts rest).2)
  ∧ decodeParts
      [mkTextPart "A".toList, mkMediaPart ⟨some "image/png", "media1"⟩,
       mkTextPart "B".toList, mkMediaPart ⟨some "image/png", "media2"⟩]
      = ([⟨"image/png", "media1"⟩, ⟨"image/png", "media2"⟩],
         ["A".toList, "B".toList]) := by
  constructor
  · unfold decodeParts
    rw [decodeLoop_textRun]
    simp [decodeLoop, mkMediaPart]
  · decide

/-- Claim C2 (counterexample): the claim says a decoding/validation failure
propagates immediately on its first occurrence and is never retried.  On
the code it is false: with a remote call that always succeeds with the
unparseable text "nope", the envelope of `extract_room_names_from_image`
makes 3 attempts (not 1), sleeping between them, because
`retry_if_exception_type(Exception)` also matches `ValidationError` raised
by the in-body decode. -/
theorem C2_counterexample :
    (extract_room_names_from_image (fun _ => Except.ok "nope")).2.1 = 3
  ∧ (extract_room_names_from_image (fun _ => Except.ok "nope")).2.1 ≠ 1
  ∧ (extract_room_names_from_image (fun _ => Except.ok "nope")).1
      = Except.error (PyErr.validation ⟨[], "json_invalid"⟩)
  ∧ (extract_room_names_from_image (fun _ => Except.ok "nope")).2.2 = [1, 2] :=
  ⟨rfl, by decide, rfl, rfl⟩

/-- Claim C2 (amended): a decoding/validation failure raised inside the
wrapped function is retried by the invocation envelope like any other
exception; with a remote call that always returns the same undecodable
text, the envelope makes 3 attempts with backoff sleeps [1, 2] and then
reraises the final validation error. -/
theorem C2_decode_failure_retried (t : String) (ve : VErr)
    (h : roomListValidateJson t = .error ve) :
    extract_room_names_from_image (fun _ => Except.ok t)
      = (Except.error (PyErr.validation ve), 3, [1, 2]) := by
  have hbody : ∀ k, extract_room_names_body (fun _ => Except.ok t) k
      = Except.error (PyErr.validation ve) := by
    intro k
    simp [extract_room_names_body, h]
  have hw1 : geminiWait 1 = 1 := by decide
  have hw2 : geminiWait 2 = 2 := by decide
  simp [extract_room_names_from_image, tenacityInvoke3, retryExec, hbody, hw1, hw2]

/-- Witness for C2's amended theorem at the concrete response text "{}"
(valid JSON missing the required "rooms" field). -/
theorem C2_amended_witness :
    extract_room_names_from_image (fun _ => Except.ok "{}")
      = (Except.error (PyErr.validation ⟨["rooms"], "missing"⟩), 3, [1, 2]) :=
  C2_decode_failure_retried "{}" ⟨["rooms"], "missing"⟩ rfl

/-- Claim C3: if the remote call raises on all 3 attempts, the wrapped
function raises the exact exception value from the final attempt
(`reraise=True`): the envelope's result is that error, unchanged, for any
error type `E`. -/
theorem C3_reraise_final_error {E A : Type} (body : Nat → Except E A) (e1 e2 e3 : E)
    (h1 : body 1 = .error e1) (h2 : body 2 = .error e2) (h3 : body 3 = .error e3) :
    (tenacityInvoke3 body).1 = Except.error e3 ∧ (tenacityInvoke3 body).2.1 = 3 := by
  simp [tenacityInvoke3, retryExec, h1, h2, h3]

/-- Witness for C3 on the `rewriter` wrapper: the remote call fails with a
distinct error on every attempt and the caller sees exactly the third
attempt's error. -/
theorem C3_witness :
    (rewriter (fun n => (Except.error n : Except Nat (Option String)))).1
      = Except.error 3 :=
  (C3_reraise_final_error (fun n => (Except.error n : Except Nat (Option String)))
    1 2 3 rfl rfl rfl).1

/-- Claim C4: the envelope makes at most 3 total attempts; if the remote
call fails twice and succeeds on the third attempt, the wrapped function
returns the third attempt's result after exactly 3 attempts with backoff
sleeps [1, 2]; and every backoff sleep the envelope ever takes lies in
[1, 10] seconds. -/
theorem C4_retry_policy {E A : Type} (body : Nat → Except E A) (e1 e2 : E) (a : A)
    (h1 : body 1 = .error e1) (h2 : body 2 = .error e2) (h3 : body 3 = .ok a) :
    tenacityInvoke3 body = (Except.ok a, 3, [1, 2])
  ∧ (∀ body2 : Nat → Except E A, (tenacityInvoke3 body2).2.1 ≤ 3
      ∧ ∀ d ∈ (tenacityInvoke3 body2).2.2, 1 ≤ d ∧ d ≤ 10) := by
  constructor
  · simp only [tenacityInvoke3, retryExec, h1, h2, h3]
    have hw1 : geminiWait 1 = 1 := by decide
    have hw2 : geminiWait 2 = 2 := by decide
    simp [hw1, hw2]
  · intro body2
    refine ⟨retryExec_attempts_le body2 2 1, ?_⟩
    intro d hd
    rcases retryExec_delay_mem body2 2 1 d hd with ⟨n, rfl⟩
    exact geminiWait_bounds n

/-- Witness for C4: a call that fails on attempts 1 and 2 and returns 7 on
attempt 3. -/
theorem C4_witness :
    tenacityInvoke3
        (fun n => match n with
          | 3 => (Except.ok 7 : Except Nat Nat)
          | _ => Except.error 0)
      = (Except.ok 7, 3, [1, 2]) :=
  (C4_retry_policy
    (fun n => match n with
      | 3 => (Except.ok 7 : Except Nat Nat)
      | _ => Except.error 0) 0 0 7 rfl rfl rfl).1

/-- Claim C5: the request builder in `generate_text` infers the media kind
from the locator's case-insensitive trailing extension: the video suffixes
map to "video/mp4", the audio suffixes to "audio/wav", the image suffixes
to "image/png", ".pdf" to "application/pdf", and anything else to
"application/octet-stream". -/
theorem C5_media_kind_inference (uri : List Char) :
    (suffixMatch videoExts uri → inferMimeType uri = "video/mp4")
  ∧ (suffixMatch audioExts uri → inferMimeType uri = "audio/wav")
  ∧ (suffixMatch imageExts uri → inferMimeType uri = "image/png")
  ∧ (suffixMatch [".pdf".toList] uri → inferMimeType uri = "application/pdf")
  ∧ (¬ suffixMatch videoExts uri → ¬ suffixMatch audioExts uri →
      ¬ suffixMatch imageExts uri → ¬ suffixMatch [".pdf".toList] uri →
      inferMimeType uri = "application/octet-stream") := by
  have hva : ∀ a ∈ audioExts, ∀ b ∈ videoExts, ¬ a <:+ b ∧ ¬ b <:+ a := by decide
  have hvi : ∀ a ∈ imageExts, ∀ b ∈ videoExts, ¬ a <:+ b ∧ ¬ b <:+ a := by decide
  have hai : ∀ a ∈ imageExts, ∀ b ∈ audioExts, ¬ a <:+ b ∧ ¬ b <:+ a := by decide
  have hpv : ∀ a ∈ [".pdf".toList], ∀ b ∈ videoExts, ¬ a <:+ b ∧ ¬ b <:+ a := by decide
  have hpa : ∀ a ∈ [".pdf".toList], ∀ b ∈ audioExts, ¬ a <:+ b ∧ ¬ b <:+ a := by decide
  have hpi : ∀ a ∈ [".pdf".toList], ∀ b ∈ imageExts, ¬ a <:+ b ∧ ¬ b <:+ a := by decide
  refine ⟨?_, ?_, ?_, ?_, ?_⟩
  · intro h
    simp only [inferMimeType, any_suffix_true h, if_true]
  · rintro ⟨e, he, hs⟩
    simp only [inferMimeType,
      any_suffix_false_of_disjoint he hs hva,
      any_suffix_true ⟨e, he, hs⟩, if_true, if_false, Bool.false_eq_true]
  · rintro ⟨e, he, hs⟩
    simp only [inferMimeType,
      any_suffix_false_of_disjoint he hs hvi,
      any_suffix_false_of_disjoint he hs hai,
      any_suffix_true ⟨e, he, hs⟩, if_true, if_false, Bool.false_eq_true]
  · rintro ⟨e, he, hs⟩
    simp only [List.mem_singleton] at he
    subst he
    have hp : (".pdf".toList).isSuffixOf (lowerChars uri) = true :=
      List.isSuffixOf_iff_suffix.mpr hs
    simp only [inferMimeType,
      any_suffix_false_of_disjoint (List.mem_singleton.mpr rfl) hs hpv,
      any_suffix_false_of_disjoint (List.mem_singleton.mpr rfl) hs hpa,
      any_suffix_false_of_disjoint (List.mem_singleton.mpr rfl) hs hpi,
      hp, if_true, if_false, Bool.false_eq_true]
  · intro h1 h2 h3 h4
    have hp : (".pdf".toList).isSuffixOf (lowerChars uri) = false := by
      rw [Bool.eq_false_iff]
      intro hs
      exact h4 ⟨".pdf".toList, List.mem_singleton.mpr rfl,
        List.isSuffixOf_iff_suffix.mp hs⟩
    simp only [inferMimeType,
      any_suffix_false_of_not h1, any_suffix_false_of_not h2,
      any_suffix_false_of_not h3, hp, if_false, Bool.false_eq_true]

/-- Witness for C5 at one concrete locator per kind, exercising the
case-insensitive matching. -/
theorem C5_witness :
    inferMimeType "a.MP4".toList = "video/mp4"
  ∧ inferMimeType "b.Mp3".toList = "audio/wav"
  ∧ inferMimeType "c.GIF".toList = "image/png"
  ∧ inferMimeType "d.PDF".toList = "application/pdf"
  ∧ inferMimeType "e.txt".toList = "application/octet-stream" :=
  ⟨(C5_media_kind_inference _).1 (by decide),
   (C5_media_kind_inference _).2.1 (by decide),
   (C5_media_kind_inference _).2.2.1 (by decide),
   (C5_media_kind_inference _).2.2.2.1 (by decide),
   (C5_media_kind_inference _).2.2.2.2 (by decide) (by decide) (by decide) (by decide)⟩

/-- Claim C6 (counterexample): the claim says every decoding function,
including `describe_image`, yields an `EmptyResponse` failure value and
never raises an attribute error when the response text is absent.  On the
code it is false: `describe_image` evaluates `response.text.strip()`, which
raises `AttributeError` when `response.text` is `None`. -/
theorem C6_counterexample :
    (describe_image (fun _ => Except.ok none)).1
      = Except.error PyErr.attributeError := rfl

/-- Claim C6 (amended): on a response with no text, `describe_image` raises
`AttributeError` (retried by the envelope, 3 attempts, then reraised),
while `analyze_audio_with_gemini` handles empty/absent text with no parts
gracefully by returning `None` (a normal return, not an error value — no
`EmptyResponse` value exists in the code). -/
theorem C6_empty_response_behavior (remote : Nat → Except String (Option String))
    (h : ∀ k, remote k = Except.ok none) :
    describe_image remote = (Except.error PyErr.attributeError, 3, [1, 2])
  ∧ (∀ t : Option String, (t = none ∨ t = some "") →
      analyze_audio_decode t [] = Except.ok none) := by
  constructor
  · have hbody : ∀ k, describe_image_body remote k = Except.error PyErr.attributeError := by
      intro k
      simp [describe_image_body, h]
    have hw1 : geminiWait 1 = 1 := by decide
    have hw2 : geminiWait 2 = 2 := by decide
    simp [describe_image, tenacityInvoke3, retryExec, hbody, hw1, hw2]
  · rintro t (rfl | rfl) <;> rfl

/-- Witness for C6's amended theorem at a remote call that always returns a
response with `text = None`. -/
theorem C6_witness :
    describe_image (fun _ => Except.ok none)
      = (Except.error PyErr.attributeError, 3, [1, 2])
  ∧ analyze_audio_decode (some "") [] = Except.ok none :=
  ⟨(C6_empty_response_behavior (fun _ => Except.ok none) (fun _ => rfl)).1,
   (C6_empty_response_behavior (fun _ => Except.ok none) (fun _ => rfl)).2
     (some "") (Or.inr rfl)⟩

/-- Claim C7: an inline media payload whose declared mime type is absent
does not make the decoder fail: the type defaults to "image/png" and the
payload is stored; a declared (non-empty) type is used instead. -/
theorem C7_mime_default (d : InlineData) (rest : List GenPart) (buf : List Char) :
    decodeLoop (mkMediaPart d :: rest) buf
      = (⟨resolveMime d.mime_type, d.data⟩ :: (decodeLoop rest []).1,
         trimChars buf :: (decodeLoop rest []).2)
  ∧ resolveMime none = "image/png"
  ∧ (∀ m : String, m ≠ "" → resolveMime (some m) = m) := by
  refine ⟨?_, rfl, ?_⟩
  · simp [decodeLoop, mkMediaPart]
  · intro m hm
    simp [resolveMime, hm]

/-- Witness for C7 at a payload with a declared "image/jpeg" mime type. -/
theorem C7_witness :
    decodeLoop [mkMediaPart ⟨some "image/jpeg", "payload"⟩] []
      = ([⟨"image/jpeg", "payload"⟩], [[]])
  ∧ resolveMime (some "image/jpeg") = "image/jpeg" := by
  have h := C7_mime_default ⟨some "image/jpeg", "payload"⟩ [] []
  constructor
  · rw [h.1]
    decide
  · exact h.2.2 "image/jpeg" (by decide)

/-- Claim C8: a JSON object missing a required field fails validation with
an error naming that field; a list field whose length violates its declared
min/max bound (`transformations` with min=max=3, `questions` with
min=max=5) fails with a field-specific error rather than decoding
successfully. -/
theorem C8_schema_validation :
    (∀ fields : List (String × Json), fields.lookup "transformations" = none →
        validateTransformationPrompts (Json.obj fields)
          = Except.error ⟨["transformations"], "missing"⟩)
  ∧ (∀ (fields : List (String × Json)) (xs : List Json),
        fields.lookup "transformations" = some (Json.arr xs) → xs.length ≠ 3 →
        validateTransformationPrompts (Json.obj fields)
          = Except.error ⟨["transformations"],
              if xs.length < 3 then "too_short" else "too_long"⟩)
  ∧ (∀ fields : List (String × Json), fields.lookup "questions" = none →
        validateCritiqueQuestionList (Json.obj fields)
          = Except.error ⟨["questions"], "missing"⟩)
  ∧ (∀ (fields : List (String × Json)) (xs : List Json),
        fields.lookup "questions" = some (Json.arr xs) → xs.length ≠ 5 →
        validateCritiqueQuestionList (Json.obj fields)
          = Except.error ⟨["questions"],
              if xs.length < 5 then "too_short" else "too_long"⟩) := by
  refine ⟨?_, ?_, ?_, ?_⟩
  · intro fields h
    simp [validateTransformationPrompts, validateBoundedList, h]
  · intro fields xs h hlen
    simp only [validateTransformationPrompts, validateBoundedList, h]
    rcases Nat.lt_or_ge xs.length 3 with hlt | hge
    · simp [hlt]
    · have hgt : 3 < xs.length := by omega
      simp [hgt, Nat.not_lt.mpr hge]
  · intro fields h
    simp [validateCritiqueQuestionList, validateBoundedList, h]
  · intro fields xs h hlen
    simp only [validateCritiqueQuestionList, validateBoundedList, h]
    rcases Nat.lt_or_ge xs.length 5 with hlt | hge
    · simp [hlt]
    · have hgt : 5 < xs.length := by omega
      simp [hgt, Nat.not_lt.mpr hge]

/-- Witness for C8: a missing `transformations` field, an empty
`transformations` list (too short for min=3), a missing `questions` field,
and a 6-element `questions` list (too long for max=5). -/
theorem C8_witness :
    validateTransformationPrompts (Json.obj [])
      = Except.error ⟨["transformations"], "missing"⟩
  ∧ validateTransformationPrompts (Json.obj [("transformations", Json.arr [])])
      = Except.error ⟨["transformations"], "too_short"⟩
  ∧ validateCritiqueQuestionList (Json.obj [])
      = Except.error ⟨["questions"], "missing"⟩
  ∧ validateCritiqueQuestionList
        (Json.obj [("questions",
          Json.arr [Json.null, Json.null, Json.null, Json.null, Json.null, Json.null])])
      = Except.error ⟨["questions"], "too_long"⟩ :=
  ⟨C8_schema_validation.1 [] rfl,
   C8_schema_validation.2.1 [("transformations", Json.arr [])] [] rfl (by decide),
   C8_schema_validation.2.2.1 [] rfl,
   C8_schema_validation.2.2.2
     [("questions",
       Json.arr [Json.null, Json.null, Json.null, Json.null, Json.null, Json.null])]
     [Json.null, Json.null, Json.null, Json.null, Json.null, Json.null] rfl (by decide)⟩

/-- Claim C9: `generate_image_from_prompt_and_images` returns media and
caption lists of equal length (each stored media artifact is paired with
exactly one caption, so the caller can zip them positionally), and when the
response has no candidates both lists are empty. -/
theorem C9_aligned_lists (candidates : List GenCandidate) :
    (generate_image_from_prompt_and_images candidates).1.length
      = (generate_image_from_prompt_and_images candidates).2.length
  ∧ generate_image_from_prompt_and_images [] = ([], []) := by
  constructor
  · rcases candidates with _ | ⟨⟨oc⟩, cs⟩
    · rfl
    · rcases oc with _ | ⟨⟨ps⟩⟩
      · rfl
      · rcases ps with _ | ⟨p, ps⟩
        · rfl
        · exact decodeLoop_length (p :: ps) []
  · rfl

/-- Claim C10: `rewrite_prompt_with_gemini` returns the original prompt
unchanged whenever the underlying rewriter returns a falsy text (`None` or
`""`), returns the rewriter's text otherwise, and so its successful result
is never empty for a non-empty input prompt. -/
theorem C10_rewrite_fallback {E : Type} (remote : Nat → Except E (Option String))
    (p : String) (t : Option String) (h : (rewriter remote).1 = Except.ok t) :
    ((t = none ∨ t = some "") → rewrite_prompt_with_gemini remote p = Except.ok p)
  ∧ (∀ s : String, t = some s → s ≠ "" →
      rewrite_prompt_with_gemini remote p = Except.ok s)
  ∧ (p ≠ "" → ∀ r : String,
      rewrite_prompt_with_gemini remote p = Except.ok r → r ≠ "") := by
  have hrw : rewrite_prompt_with_gemini remote p
      = t.elim (Except.ok p) (fun s => if s = "" then Except.ok p else Except.ok s) := by
    unfold rewrite_prompt_with_gemini
    rw [h]
    cases t <;> rfl
  refine ⟨?_, ?_, ?_⟩
  · rintro (rfl | rfl)
    · simpa using hrw
    · simpa using hrw
  · intro s hs hne
    subst hs
    rw [hrw]
    simp [hne]
  · intro hp r hr
    rw [hrw] at hr
    rcases t with _ | s
    · simp at hr
      subst hr
      exact hp
    · by_cases hs : s = ""
      · simp [hs] at hr
        subst hr
        exact hp
      · simp [hs] at hr
        subst hr
        exact hs

/-- Witness for C10 at a rewriter that succeeds with the empty string: the
original prompt is returned unchanged. -/
theorem C10_witness :
    rewrite_prompt_with_gemini
        (fun _ => (Except.ok (some "") : Except Unit (Option String))) "orig"
      = Except.ok "orig" :=
  (C10_rewrite_fallback (fun _ => (Except.ok (some "") : Except Unit (Option String)))
    "orig" (some "") rfl).1 (Or.inr rfl)
